import Mathlib

/-!
Shallow embedding of the pdi-carsim repository core:
the 2D vector/polygon geometry module (src/geometry/geometry.go),
the vehicle kinematic model, pursuit controller and path generator
of the main demo program (src/unnamed/part_000).

Go's float64 arithmetic is modelled over the real numbers.  Where the
source relies on IEEE non-finite values only through order comparisons
(which are false for NaN), the model uses junk values that fail the same
comparisons; each such spot is documented at its definition.
-/

namespace CarSim

noncomputable section

/-- 2D vector (`geometry.Vector`). -/
@[ext]
structure Vector where
  X : ℝ
  Y : ℝ

/-- `geometry.Null = Vector{0, 0}`. -/
def Null : Vector := ⟨0, 0⟩

/-- `geometry.X = Vector{1, 0}` (unit forward vector). -/
def X : Vector := ⟨1, 0⟩

/-- `geometry.Y = Vector{0, 1}`. -/
def Y : Vector := ⟨0, 1⟩

/-- `Vector.Add`. -/
def Vector.Add (v a : Vector) : Vector := ⟨v.X + a.X, v.Y + a.Y⟩

/-- `Vector.AddX`: adds only the x component. -/
def Vector.AddX (v a : Vector) : Vector := ⟨v.X + a.X, v.Y⟩

/-- `Vector.AddY`: adds only the y component. -/
def Vector.AddY (v a : Vector) : Vector := ⟨v.X, v.Y + a.Y⟩

/-- `Vector.Scale`. -/
def Vector.Scale (v : Vector) (s : ℝ) : Vector := ⟨s * v.X, s * v.Y⟩

/-- `Vector.Len = sqrt(x*x + y*y)`. -/
def Vector.Len (v : Vector) : ℝ := Real.sqrt (v.X * v.X + v.Y * v.Y)

/-- `Vector.Norm`: unit vector, or the vector unchanged when its length is 0. -/
def Vector.Norm (v : Vector) : Vector :=
  if v.Len ≠ 0 then v.Scale (1 / v.Len) else v

/-- `Vector.Dot`. -/
def Vector.Dot (v a : Vector) : ℝ := v.X * a.X + v.Y * a.Y

/-- `Vector.Det` (2D cross product / determinant). -/
def Vector.Det (v a : Vector) : ℝ := v.X * a.Y - v.Y * a.X

/-- Go's `math.Atan2 y x`, modelled as the argument of the complex number
`x + y i` (value in `(-π, π]`, and `atan2 0 0 = 0` as in Go). -/
def atan2 (y x : ℝ) : ℝ := Complex.arg ⟨x, y⟩

/-- `Vector.AngleBetween = atan2(det, dot)`. -/
def Vector.AngleBetween (v a : Vector) : ℝ := atan2 (v.Det a) (v.Dot a)

/-- `Vector.RotateAround`, the source's exact (non-standard) rotation formula. -/
def Vector.RotateAround (v a : Vector) (angle : ℝ) : Vector :=
  ⟨(v.X - a.X) * Real.cos angle + (a.Y - v.Y) * Real.sin angle + a.X,
   (a.Y - v.Y) * Real.cos angle - (v.X - a.X) * Real.sin angle + a.Y⟩

/-- `geometry.Polygon`: an ordered list of vertices. -/
abbrev Polygon := List Vector

/-- `Polygon.Center`: arithmetic mean of the vertices, origin when empty. -/
def Polygon.Center (p : Polygon) : Vector :=
  if (p.length : ℝ) = 0 then ⟨0, 0⟩
  else (p.foldl Vector.Add ⟨0, 0⟩).Scale (1 / (p.length : ℝ))

/-- `Polygon.Translate`. -/
def Polygon.Translate (p : Polygon) (v : Vector) : Polygon :=
  p.map (fun c => c.Add v)

/-- `Polygon.RotateAround`: per-vertex rotation, order preserved. -/
def Polygon.RotateAround (p : Polygon) (v : Vector) (angle : ℝ) : Polygon :=
  p.map (fun c => c.RotateAround v angle)

/-- Length of edge `i` of the implicitly closed polygon:
`|p[(i+1) mod n] - p[i]|`, exactly the `distance` of `Polygon.Interpolate`'s
first loop. -/
def edgeLen (p : Polygon) (i : ℕ) : ℝ :=
  ((p.getD ((i + 1) % p.length) Null).Add ((p.getD i Null).Scale (-1))).Len

/-- The cumulative edge-length array `connections` of `Polygon.Interpolate`:
`connections[0] = 0`, `connections[i+1] = distance_i + connections[i]`. -/
def conn (p : Polygon) : ℕ → ℝ
  | 0 => 0
  | i + 1 => edgeLen p i + conn p i

/-- The `length` accumulator of `Polygon.Interpolate`.  The source sums the
same distances in the same order into a separate variable; over ℝ that sum
equals `conn p p.length`. -/
def totalLen (p : Polygon) : ℝ := conn p p.length

/-- The search loop of `Polygon.Interpolate`: for `i = 1 .. pointCount`, if
`target < connections[i]/length`, interpolate inside edge `i-1`; when the
loop runs out it returns `Null`.  `fuel` counts the remaining iterations.
If `length` is zero, Go's divisions produce NaN and every comparison with
it is false; over ℝ the division yields the junk value 0 and the comparison
`target < 0` is equally false for the clamped `target ≥ 0`, so the scan
falls through to `Null` in both semantics. -/
def interpScan (p : Polygon) (target L : ℝ) : ℕ → ℕ → Vector
  | _, 0 => Null
  | i, fuel + 1 =>
    if target < conn p i / L then
      let a := conn p (i - 1) / L
      let b := conn p i / L
      let k := (target - a) / (b - a)
      (p.getD (i - 1) Null).Add
        (((p.getD (i % p.length) Null).Add ((p.getD (i - 1) Null).Scale (-1))).Scale k)
    else interpScan p target L (i + 1) fuel

/-- `Polygon.Interpolate`: clamp the parameter to `[0,1]`, then scan the
cumulative edge lengths. -/
def Polygon.Interpolate (p : Polygon) (v : ℝ) : Vector :=
  let target := min 1 (max 0 v)
  interpScan p target (totalLen p) 1 p.length

/-- `CarModel` (src/unnamed/part_000): kinematic vehicle state. -/
structure CarModel where
  Size : Vector
  Position : Vector
  Velocity : Vector
  Acceleration : Vector
  Bounds : Polygon
  Mass : ℝ
  Rotation : ℝ
  Tension : ℝ
  Sensitivity : ℝ

/-- `CarModel.ApplyForce`: `acceleration += f * (1/mass)`.  The source has no
mass check; with `Mass = 0` Go computes `1.0/0 = +Inf` silently, here the
ℝ junk value `1/0 = 0` stands in — in neither semantics is there an abort. -/
def CarModel.ApplyForce (car : CarModel) (f : Vector) : CarModel :=
  { car with Acceleration := car.Acceleration.Add (f.Scale (1 / car.Mass)) }

/-- `CarModel.Accelerate`: forward force of the given magnitude. -/
def CarModel.Accelerate (car : CarModel) (delta : ℝ) : CarModel :=
  car.ApplyForce (X.Scale delta)

/-- `CarModel.Break`: scales acceleration by `Tension/Sensitivity` and
velocity by `Tension`; the `delta` parameter is not used by the body,
exactly as in the source. -/
def CarModel.Break (car : CarModel) (delta : ℝ) : CarModel :=
  { car with
    Acceleration := car.Acceleration.Scale (car.Tension / car.Sensitivity),
    Velocity := car.Velocity.Scale car.Tension }

/-- `CarModel.Turn`: `rotation += delta * sensitivity`. -/
def CarModel.Turn (car : CarModel) (delta : ℝ) : CarModel :=
  { car with Rotation := car.Rotation + delta * car.Sensitivity }

/-- `NewCar`: constructor with the source's fixed `Tension = 0.9999`,
`Sensitivity = 50` and rectangular bounds; no validation of `mass`. -/
def NewCar (mass x y width height : ℝ) : CarModel :=
  let size : Vector := ⟨width, height⟩
  { Size := size
    Position := ⟨x, y⟩
    Velocity := Null
    Acceleration := Null
    Bounds := [Null, Null.AddX size, size, Null.AddY size]
    Mass := mass
    Rotation := 0
    Tension := 0.9999
    Sensitivity := 50 }

/-- `CarModel.TurnCenter`: centroid of the bounds translated back along x by
`0.2 * size.x`. -/
def CarModel.TurnCenter (car : CarModel) : Vector :=
  Polygon.Center (Polygon.Translate car.Bounds (Null.AddX (car.Size.Scale (-0.2))))

/-- `CarModel.Update`: per-tick integrator — acceleration decays by `Tension`
(independent of `delta`), then velocity integrates the decayed acceleration,
then position integrates the heading-rotated displacement. -/
def CarModel.Update (car : CarModel) (delta : ℝ) : CarModel :=
  let acc := car.Acceleration.Scale car.Tension
  let vel := car.Velocity.Add (acc.Scale delta)
  let pos := car.Position.Add ((vel.Scale delta).RotateAround Null car.Rotation)
  { car with Acceleration := acc, Velocity := vel, Position := pos }

/-- Go's `math.Log`: natural logarithm for positive arguments.  For zero or
negative arguments Go returns `-Inf` resp. `NaN`; the only use of the result
in this program is the comparison `of > 0`, which is false for both, so they
are modelled by the junk value `0`, which also fails that comparison.
(Mathlib's raw `Real.log` is NOT faithful here: it maps a negative argument
to the log of its absolute value, which can be positive.) -/
def mathLog (x : ℝ) : ℝ := if 0 < x then Real.log x else 0

/-- `SimpleCarControl.Feed`: the pursuit controller, translated
statement-for-statement.  `diffVector` is computed once from the entry state;
`Turn` only changes `Rotation`, so later reads are unaffected, as in Go. -/
def Feed (ctrl : CarModel) (delta : ℝ) (p : Vector) : CarModel :=
  let diffVector := p.Add ((ctrl.Position.Add ctrl.TurnCenter).Scale (-1))
  let diffAngle := diffVector.AngleBetween ((ctrl.Velocity.Norm).RotateAround Null ctrl.Rotation)
  let c1 := if diffAngle > 0 then ctrl.Turn delta
            else if diffAngle < 0 then ctrl.Turn (-delta) else ctrl
  let br := -diffVector.Len + 100
  let of := mathLog (diffVector.Len - 30) / 10
  let c2 := if of > 0 then c1.Accelerate 0.1 else c1
  if br > 0 then c2.Break br else c2

/-- The controller as the spec's words describe it (spec §4.4 step 6, §7):
the throttle formula is evaluated only behind the domain guard
`|toTarget| > 30`; inside the guard the argument of the logarithm is
positive, so the spec's mathematical `log` is `Real.log`.  Steering and
brake are as in the source.  This definition exists to be compared with
`Feed`, which is translated from the source. -/
def FeedSpecGuarded (ctrl : CarModel) (delta : ℝ) (p : Vector) : CarModel :=
  let diffVector := p.Add ((ctrl.Position.Add ctrl.TurnCenter).Scale (-1))
  let diffAngle := diffVector.AngleBetween ((ctrl.Velocity.Norm).RotateAround Null ctrl.Rotation)
  let c1 := if diffAngle > 0 then ctrl.Turn delta
            else if diffAngle < 0 then ctrl.Turn (-delta) else ctrl
  let br := -diffVector.Len + 100
  let c2 := if 30 < diffVector.Len then
              (if 0 < Real.log (diffVector.Len - 30) / 10 then c1.Accelerate 0.1 else c1)
            else c1
  if br > 0 then c2.Break br else c2

/-- `generateRandomPath`: each vertex draws two consecutive samples from the
process-wide PRNG (x first, then y) and maps them affinely into the target
rectangle.  The Go standard library generator is external to this repository;
it is modelled by its contract as a stream `rng : ℕ → ℝ` of `rand.Float64()`
samples in `[0,1)`, fully determined by the seed, consumed in order: vertex
`i` uses samples `2*i` (x) and `2*i+1` (y). -/
def generateRandomPath (c : ℕ) (x y width height : ℝ) (rng : ℕ → ℝ) : Polygon :=
  (List.range c).map (fun i => ⟨rng (2 * i) * width + x, rng (2 * i + 1) * height + y⟩)

/-- Concrete two-vertex polygon with perimeter 2, used as an input below. -/
def P0 : Polygon := [⟨1, 1⟩, ⟨2, 1⟩]

/-- Concrete degenerate polygon: two equal vertices, perimeter 0. -/
def Pdeg : Polygon := [⟨5, 5⟩, ⟨5, 5⟩]

/-- Concrete car with friction factor 1/2, velocity (1,0), zero acceleration,
and no force ever applied. -/
def car2 : CarModel :=
  { NewCar 1 0 0 100 50 with Velocity := ⟨1, 0⟩, Tension := 1/2 }

/-- Concrete car of the C7 scenario: the demo car shape (100×50) at
position (0,0), rotation 0, velocity (0,0). -/
def car7 : CarModel := NewCar 1 0 0 100 50

theorem scale_zero (v : Vector) : v.Scale 0 = Null := by
  simp [Vector.Scale, Null]

theorem add_null (v : Vector) : v.Add Null = v := by
  simp [Vector.Add, Null]

theorem null_add (v : Vector) : Null.Add v = v := by
  simp [Vector.Add, Null]

theorem len_nonneg (v : Vector) : 0 ≤ v.Len := Real.sqrt_nonneg _

theorem len_eq_zero {v : Vector} (h : v.Len = 0) : v = Null := by
  have h' : v.X * v.X + v.Y * v.Y ≤ 0 := Real.sqrt_eq_zero'.mp h
  ext
  · show v.X = (0 : ℝ); nlinarith [sq_nonneg v.X, sq_nonneg v.Y]
  · show v.Y = (0 : ℝ); nlinarith [sq_nonneg v.X, sq_nonneg v.Y]

theorem null_scale (s : ℝ) : Null.Scale s = Null := by
  simp [Vector.Scale, Null]

theorem sub_eq_null {v w : Vector} (h : v.Add (w.Scale (-1)) = Null) : v = w := by
  have hx := congrArg Vector.X h
  have hy := congrArg Vector.Y h
  simp [Vector.Add, Vector.Scale, Null] at hx hy
  ext
  · linarith
  · linarith

/-- Claim C9: for every vector `v` and every angle `θ`,
`rotateAround(v, v, θ) = v` exactly — a point is a fixed point of the
(non-standard) rotation about itself. -/
theorem rotateAround_self_fixed (v : Vector) (θ : ℝ) : v.RotateAround v θ = v := by
  ext <;> simp [Vector.RotateAround]

/-- Claim C10: `Break` ignores its magnitude argument — for every vehicle
state and any two values `d1, d2`, `Break d1` and `Break d2` produce the same
post-state, which scales acceleration by `Tension/Sensitivity` and velocity
by `Tension`. -/
theorem break_ignores_delta (car : CarModel) (d1 d2 : ℝ) :
    car.Break d1 = car.Break d2 ∧
    (car.Break d1).Acceleration = car.Acceleration.Scale (car.Tension / car.Sensitivity) ∧
    (car.Break d1).Velocity = car.Velocity.Scale car.Tension :=
  ⟨rfl, rfl, rfl⟩

/-- Claim C8: `update(0)` leaves position and velocity exactly unchanged,
while acceleration is still multiplied by the friction factor; rotation,
mass, size and bounds are also unchanged. -/
theorem update_zero_frame (car : CarModel) :
    (car.Update 0).Position = car.Position ∧
    (car.Update 0).Velocity = car.Velocity ∧
    (car.Update 0).Acceleration = car.Acceleration.Scale car.Tension ∧
    (car.Update 0).Rotation = car.Rotation ∧
    (car.Update 0).Mass = car.Mass ∧
    (car.Update 0).Size = car.Size ∧
    (car.Update 0).Bounds = car.Bounds := by
  refine ⟨?_, ?_, rfl, rfl, rfl, rfl, rfl⟩
  · ext <;> simp [CarModel.Update, Vector.Add, Vector.Scale, Vector.RotateAround, Null]
  · ext <;> simp [CarModel.Update, Vector.Add, Vector.Scale, Null]

/-- Claim C5 (code evaluated at the failing configuration): neither `NewCar`
nor `ApplyForce` validates the mass — construction succeeds for every mass
(including 0 and negatives) and `ApplyForce` always computes
`acceleration += f * (1/mass)` with no abort path (Go silently produces
`+Inf` at mass 0; the ℝ model's division junk value stands in for it). -/
theorem newCar_applyForce_no_validation (m x y w h : ℝ) :
    (NewCar m x y w h).Mass = m ∧
    ((NewCar m x y w h).ApplyForce X).Acceleration = X.Scale (1 / m) := by
  refine ⟨rfl, ?_⟩
  show Null.Add (X.Scale (1 / m)) = X.Scale (1 / m)
  exact null_add _

/-- Claim C2 (counterexample): a concrete car with friction factor 1/2 < 1,
velocity (1,0), zero acceleration and no applied force: repeated `Update 1`
leaves the speed constantly 1, so the speed sequence does not converge to
zero. -/
theorem speeds_not_tendsto_zero_cex :
    car2.Tension < 1 ∧
    ¬ Filter.Tendsto (fun k => ((fun c => CarModel.Update c 1)^[k] car2).Velocity.Len)
        Filter.atTop (nhds 0) := by
  constructor
  · show (1 : ℝ)/2 < 1; norm_num
  · intro hcontra
    have hinv : ∀ k, ((fun c => CarModel.Update c 1)^[k] car2).Velocity = (⟨1, 0⟩ : Vector) ∧
        ((fun c => CarModel.Update c 1)^[k] car2).Acceleration = Null := by
      intro k
      induction k with
      | zero => exact ⟨rfl, rfl⟩
      | succ n ih =>
        obtain ⟨hv, ha⟩ := ih
        rw [Function.iterate_succ_apply']
        generalize hs : ((fun c => CarModel.Update c 1)^[n] car2) = s at hv ha ⊢
        constructor
        · show (s.Update 1).Velocity = _
          simp [CarModel.Update, ha, null_scale, add_null, hv]
        · show (s.Update 1).Acceleration = Null
          simp [CarModel.Update, ha, null_scale]
    have hconst : (fun k => ((fun c => CarModel.Update c 1)^[k] car2).Velocity.Len)
        = fun _ => (1 : ℝ) := by
      funext k
      rw [(hinv k).1]
      simp [Vector.Len]
    rw [hconst] at hcontra
    have h10 : (0 : ℝ) = 1 := tendsto_nhds_unique hcontra tendsto_const_nhds
    norm_num at h10

/-- Claim C2 (amended): with friction factor below 1, positive fixed `dt`,
zero acceleration and no applied force, repeated `update(dt)` leaves the
velocity (hence its magnitude) exactly constant — the integrator never decays
velocity, so the speed converges to its initial value, not to zero. -/
theorem update_iterate_zero_accel (car : CarModel) (dt : ℝ) (hT : car.Tension < 1)
    (hdt : 0 < dt) (h : car.Acceleration = Null) (k : ℕ) :
    ((fun c => CarModel.Update c dt)^[k] car).Velocity = car.Velocity ∧
    ((fun c => CarModel.Update c dt)^[k] car).Acceleration = Null := by
  induction k with
  | zero => exact ⟨rfl, h⟩
  | succ n ih =>
    obtain ⟨hv, ha⟩ := ih
    rw [Function.iterate_succ_apply']
    generalize hs : ((fun c => CarModel.Update c dt)^[n] car) = s at hv ha ⊢
    constructor
    · show (s.Update dt).Velocity = _
      simp [CarModel.Update, ha, null_scale, add_null, hv]
    · show (s.Update dt).Acceleration = Null
      simp [CarModel.Update, ha, null_scale]

theorem update_iterate_zero_accel_witness :
    car2.Tension < 1 ∧ (0 : ℝ) < 1 ∧ car2.Acceleration = Null ∧
    (((fun c => CarModel.Update c 1)^[3] car2).Velocity = car2.Velocity ∧
     ((fun c => CarModel.Update c 1)^[3] car2).Acceleration = Null) :=
  ⟨by show (1 : ℝ)/2 < 1; norm_num, by norm_num, rfl,
   update_iterate_zero_accel car2 1 (by show (1 : ℝ)/2 < 1; norm_num) (by norm_num) rfl 3⟩

theorem interpScan_total_zero (p : Polygon) (target : ℝ) (ht : 0 ≤ target) :
    ∀ fuel i, interpScan p target 0 i fuel = Null := by
  intro fuel
  induction fuel with
  | zero => intro i; rfl
  | succ n ih =>
    intro i
    simp only [interpScan]
    rw [div_zero, if_neg (not_lt.mpr ht)]
    exact ih (i + 1)

/-- Claim C4 (code evaluated at the failing input): when the total perimeter
is zero, every comparison `target < connections[i]/length` of the scan is
false (NaN in Go, the junk value 0 of division by zero over ℝ — the clamped
`target` is ≥ 0 either way), so `Interpolate` falls through and returns the
origin `Null` for every `t` — not the first vertex the spec mandates. -/
theorem interpolate_zero_perimeter_origin (p : Polygon) (h : totalLen p = 0) (t : ℝ) :
    Polygon.Interpolate p t = Null := by
  show interpScan p (min 1 (max 0 t)) (totalLen p) 1 p.length = Null
  rw [h]
  exact interpScan_total_zero p _ (le_min (by norm_num) (le_max_left 0 t)) p.length 1

theorem pdeg_total : totalLen Pdeg = 0 := by
  have h0 : edgeLen Pdeg 0 = 0 := by
    simp [edgeLen, Pdeg, Vector.Add, Vector.Scale, Vector.Len, Null]
  have h1 : edgeLen Pdeg 1 = 0 := by
    simp [edgeLen, Pdeg, Vector.Add, Vector.Scale, Vector.Len, Null]
  show edgeLen Pdeg 1 + (edgeLen Pdeg 0 + 0) = 0
  rw [h0, h1]
  norm_num

theorem interpolate_zero_perimeter_origin_witness :
    totalLen Pdeg = 0 ∧ Polygon.Interpolate Pdeg (1/2) = Null :=
  ⟨pdeg_total, interpolate_zero_perimeter_origin Pdeg pdeg_total (1/2)⟩

theorem conn_succ (p : Polygon) (i : ℕ) : conn p (i + 1) = edgeLen p i + conn p i := rfl

theorem conn_nonneg (p : Polygon) (i : ℕ) : 0 ≤ conn p i := by
  induction i with
  | zero => exact le_refl 0
  | succ n ih =>
    rw [conn_succ]
    exact add_nonneg (len_nonneg _) ih

theorem conn_le_conn (p : Polygon) {i j : ℕ} (h : i ≤ j) : conn p i ≤ conn p j := by
  induction j with
  | zero =>
    have h0 : i = 0 := Nat.le_zero.mp h
    rw [h0]
  | succ n ih =>
    by_cases h' : i ≤ n
    · calc conn p i ≤ conn p n := ih h'
        _ ≤ conn p (n + 1) := by
            rw [conn_succ]
            exact le_add_of_nonneg_left (len_nonneg _)
    · have heq : i = n + 1 := by omega
      rw [heq]

theorem interpScan_at_zero (p : Polygon) (hL : 0 < totalLen p) :
    ∀ fuel i, 1 ≤ i → i + fuel = p.length + 1 →
      conn p (i - 1) = 0 → p.getD (i - 1) Null = p.getD 0 Null →
      interpScan p 0 (totalLen p) i fuel = p.getD 0 Null := by
  intro fuel
  induction fuel with
  | zero =>
    intro i h1 hsum hc _
    exfalso
    have heq : i - 1 = p.length := by omega
    rw [heq] at hc
    exact absurd hc (ne_of_gt hL)
  | succ n ih =>
    intro i h1 hsum hc hv
    simp only [interpScan]
    by_cases hcond : (0 : ℝ) < conn p i / totalLen p
    · rw [if_pos hcond]
      rw [hc]
      simp only [scale_zero, add_null, zero_div, sub_zero, zero_sub, neg_zero,
        div_zero, zero_mul]
      simp [scale_zero, add_null]
      simpa [List.getD] using hv
    · rw [if_neg hcond]
      have hile : i ≤ p.length := by omega
      have hlt : i < p.length := by
        rcases Nat.lt_or_ge i p.length with h' | h'
        · exact h'
        · exfalso
          have heq : i = p.length := by omega
          rw [heq] at hcond
          have : conn p p.length / totalLen p = 1 := div_self (ne_of_gt hL)
          rw [this] at hcond
          exact hcond one_pos
      have h2 : conn p i / totalLen p ≤ 0 := le_of_not_lt hcond
      have h3 : conn p i ≤ 0 := by
        have h4 := mul_le_mul_of_nonneg_right h2 (le_of_lt hL)
        rwa [div_mul_cancel₀ _ (ne_of_gt hL), zero_mul] at h4
      have hz : conn p i = 0 := le_antisymm h3 (conn_nonneg p i)
      have hi : i = (i - 1) + 1 := by omega
      have hedge : edgeLen p (i - 1) = 0 := by
        have h5 : edgeLen p (i - 1) + conn p (i - 1) = 0 := by
          rw [← conn_succ, ← hi]; exact hz
        rw [hc, add_zero] at h5
        exact h5
      have hvnext : p.getD i Null = p.getD 0 Null := by
        have h6 : ((p.getD ((i - 1 + 1) % p.length) Null).Add
            ((p.getD (i - 1) Null).Scale (-1))).Len = 0 := hedge
        rw [← hi, Nat.mod_eq_of_lt hlt] at h6
        have h7 := len_eq_zero h6
        have h8 := sub_eq_null h7
        rw [h8, hv]
      exact ih (i + 1) (by omega) (by omega) (by simpa using hz) (by simpa using hvnext)

theorem interpScan_at_one (p : Polygon) (hL : 0 < totalLen p) :
    ∀ fuel i, i + fuel ≤ p.length + 1 → interpScan p 1 (totalLen p) i fuel = Null := by
  intro fuel
  induction fuel with
  | zero => intro i _; rfl
  | succ n ih =>
    intro i hsum
    have hile : i ≤ p.length := by omega
    have hcond : ¬ ((1 : ℝ) < conn p i / totalLen p) := by
      have h1 : conn p i ≤ totalLen p := conn_le_conn p hile
      have h2 : conn p i / totalLen p ≤ 1 := by
        rw [div_le_one hL]; exact h1
      exact not_lt.mpr h2
    simp only [interpScan]
    rw [if_neg hcond]
    exact ih (i + 1) (by omega)

/-- Claim C1 (amended): for every polygon with at least 2 vertices and
positive total perimeter, `interpolate(0)` returns `vertices[0]`, but
`interpolate(1)` returns the origin `Null`: at `t = 1` the scan condition
`target < connections[i]/length` never holds (the last ratio is exactly 1),
so the loop falls through to the `Null` fallback instead of closing the
loop at `vertices[0]`. -/
theorem interpolate_endpoints (p : Polygon) (h2 : 2 ≤ p.length) (hL : 0 < totalLen p) :
    Polygon.Interpolate p 0 = p.getD 0 Null ∧ Polygon.Interpolate p 1 = Null := by
  constructor
  · show interpScan p (min 1 (max 0 0)) (totalLen p) 1 p.length = p.getD 0 Null
    have h0 : min (1 : ℝ) (max 0 (0 : ℝ)) = 0 := by norm_num
    rw [h0]
    exact interpScan_at_zero p hL p.length 1 (le_refl 1) (by omega) rfl rfl
  · show interpScan p (min 1 (max 0 1)) (totalLen p) 1 p.length = Null
    have h1 : min (1 : ℝ) (max 0 (1 : ℝ)) = 1 := by norm_num
    rw [h1]
    exact interpScan_at_one p hL p.length 1 (by omega)

theorem p0_edge0 : edgeLen P0 0 = 1 := by
  simp [edgeLen, P0, Vector.Add, Vector.Scale, Vector.Len, Null]
  norm_num [Real.sqrt_one]

theorem p0_edge1 : edgeLen P0 1 = 1 := by
  simp [edgeLen, P0, Vector.Add, Vector.Scale, Vector.Len, Null]
  norm_num [Real.sqrt_one]

theorem p0_total : totalLen P0 = 2 := by
  show edgeLen P0 1 + (edgeLen P0 0 + 0) = 2
  rw [p0_edge0, p0_edge1]
  norm_num

theorem p0_total_pos : 0 < totalLen P0 := by
  rw [p0_total]; norm_num

theorem interpolate_endpoints_witness :
    2 ≤ P0.length ∧ 0 < totalLen P0 ∧
    (Polygon.Interpolate P0 0 = P0.getD 0 Null ∧ Polygon.Interpolate P0 1 = Null) :=
  ⟨by norm_num [P0], p0_total_pos, interpolate_endpoints P0 (by norm_num [P0]) p0_total_pos⟩

/-- Claim C1 (counterexample): for the polygon [(1,1),(2,1)] — 2 vertices,
perimeter 2 — `interpolate(1)` is the origin (0,0), which is not
`vertices[0] = (1,1)` and differs from it by √2 > 1, far beyond any
floating-point epsilon. -/
theorem interpolate_one_cex :
    2 ≤ P0.length ∧ 0 < totalLen P0 ∧
    Polygon.Interpolate P0 1 = Null ∧
    Polygon.Interpolate P0 1 ≠ P0.getD 0 Null ∧
    1 < ((Polygon.Interpolate P0 1).Add ((P0.getD 0 Null).Scale (-1))).Len := by
  have hc1 : conn P0 1 = 1 := by
    show edgeLen P0 0 + 0 = 1
    rw [p0_edge0]; norm_num
  have hc2 : conn P0 (1 + 1) = 2 := by
    show edgeLen P0 1 + (edgeLen P0 0 + 0) = 2
    rw [p0_edge0, p0_edge1]; norm_num
  have hone : Polygon.Interpolate P0 1 = Null := by
    show interpScan P0 (min 1 (max 0 1)) (totalLen P0) 1 P0.length = Null
    have h1 : min (1 : ℝ) (max 0 (1 : ℝ)) = 1 := by norm_num
    rw [h1, p0_total]
    show interpScan P0 1 2 1 (0 + 1 + 1) = Null
    simp only [interpScan]
    rw [if_neg (by rw [hc1]; norm_num), if_neg (by rw [hc2]; norm_num)]
  refine ⟨by norm_num [P0], p0_total_pos, hone, ?_, ?_⟩
  · rw [hone]
    intro h
    have hx := congrArg Vector.X h
    simp [Null, P0] at hx
  · rw [hone]
    have hcalc : ((Null : Vector).Add ((P0.getD 0 Null).Scale (-1))) = ⟨-1, -1⟩ := by
      simp [Null, P0, Vector.Add, Vector.Scale]
    rw [hcalc]
    show 1 < Real.sqrt ((-1) * (-1) + (-1) * (-1))
    have h2 : ((-1 : ℝ) * (-1) + (-1) * (-1)) = 2 := by norm_num
    rw [h2]
    exact (Real.lt_sqrt (by norm_num)).mpr (by norm_num)

theorem throttle_step_eq (c1 : CarModel) (dLen : ℝ) :
    (if mathLog (dLen - 30) / 10 > 0 then c1.Accelerate 0.1 else c1) =
    (if 30 < dLen then
       (if 0 < Real.log (dLen - 30) / 10 then c1.Accelerate 0.1 else c1)
     else c1) := by
  by_cases h : 30 < dLen
  · have hx : (0 : ℝ) < dLen - 30 := by linarith
    rw [if_pos h]
    unfold mathLog
    rw [if_pos hx]
  · rw [if_neg h]
    have hx : ¬ (0 : ℝ) < dLen - 30 := by
      push_neg at h ⊢
      linarith
    unfold mathLog
    rw [if_neg hx]
    norm_num

/-- Claim C3: the source computes the throttle signal unconditionally, but a
non-positive logarithm argument can never fire the throttle (Go returns
NaN or -Inf there, which fail the `> 0` test; the model's `mathLog` junk value 0
fails it equally), so the controller is extensionally equal to the spec's
guarded controller: `accelerate(0.1)` fires exactly when `|toTarget| > 30`
and `log(|toTarget| - 30)/10 > 0`, and for `|toTarget| ≤ 30` the throttle
step has no effect on the state. -/
theorem feed_eq_guarded (ctrl : CarModel) (delta : ℝ) (p : Vector) :
    Feed ctrl delta p = FeedSpecGuarded ctrl delta p := by
  simp only [Feed, FeedSpecGuarded, throttle_step_eq]

/-- Claim C6: `generateRandomPath(8, 100, 100, 1000, 600, ·)` is a pure
function of the PRNG sample stream (which the seed fully determines): any
two runs whose streams agree on the 16 consumed samples produce identical
vertex sequences; and with samples in `[0,1)` every vertex lies in
`[100, 1100) × [100, 700)`, with exactly 8 vertices produced. -/
theorem generateRandomPath_deterministic_bounded (s1 s2 : ℕ → ℝ)
    (hagree : ∀ i, i < 16 → s1 i = s2 i)
    (hbound : ∀ i, 0 ≤ s1 i ∧ s1 i < 1) :
    generateRandomPath 8 100 100 1000 600 s1 = generateRandomPath 8 100 100 1000 600 s2 ∧
    (generateRandomPath 8 100 100 1000 600 s1).length = 8 ∧
    ∀ v ∈ generateRandomPath 8 100 100 1000 600 s1,
      100 ≤ v.X ∧ v.X < 1100 ∧ 100 ≤ v.Y ∧ v.Y < 700 := by
  refine ⟨?_, ?_, ?_⟩
  · unfold generateRandomPath
    apply List.map_congr_left
    intro i hi
    have hi8 : i < 8 := List.mem_range.mp hi
    have e1 : s1 (2 * i) = s2 (2 * i) := hagree _ (by omega)
    have e2 : s1 (2 * i + 1) = s2 (2 * i + 1) := hagree _ (by omega)
    rw [e1, e2]
  · simp [generateRandomPath]
  · intro v hv
    unfold generateRandomPath at hv
    rw [List.mem_map] at hv
    obtain ⟨i, hi, rfl⟩ := hv
    obtain ⟨hx0, hx1⟩ := hbound (2 * i)
    obtain ⟨hy0, hy1⟩ := hbound (2 * i + 1)
    refine ⟨?_, ?_, ?_, ?_⟩
    · show (100 : ℝ) ≤ s1 (2 * i) * 1000 + 100
      nlinarith
    · show s1 (2 * i) * 1000 + 100 < 1100
      nlinarith
    · show (100 : ℝ) ≤ s1 (2 * i + 1) * 600 + 100
      nlinarith
    · show s1 (2 * i + 1) * 600 + 100 < 700
      nlinarith

theorem generateRandomPath_deterministic_bounded_witness :
    (∀ i, i < 16 → (fun _ : ℕ => (1 : ℝ)/2) i = (fun _ : ℕ => (1 : ℝ)/2) i) ∧
    (∀ i, 0 ≤ (fun _ : ℕ => (1 : ℝ)/2) i ∧ (fun _ : ℕ => (1 : ℝ)/2) i < 1) ∧
    (generateRandomPath 8 100 100 1000 600 (fun _ : ℕ => (1 : ℝ)/2) =
       generateRandomPath 8 100 100 1000 600 (fun _ : ℕ => (1 : ℝ)/2) ∧
     (generateRandomPath 8 100 100 1000 600 (fun _ : ℕ => (1 : ℝ)/2)).length = 8 ∧
     ∀ v ∈ generateRandomPath 8 100 100 1000 600 (fun _ : ℕ => (1 : ℝ)/2),
       100 ≤ v.X ∧ v.X < 1100 ∧ 100 ≤ v.Y ∧ v.Y < 700) :=
  ⟨fun _ _ => rfl, fun _ => by norm_num,
   generateRandomPath_deterministic_bounded _ _ (fun _ _ => rfl) (fun _ => by norm_num)⟩

theorem atan2_zero_zero : atan2 0 0 = 0 := by
  unfold atan2
  have h : (⟨0, 0⟩ : ℂ) = 0 := by
    apply Complex.ext <;> simp
  rw [h, Complex.arg_zero]

theorem angle_with_null (v : Vector) : v.AngleBetween Null = 0 := by
  have h1 : v.Det Null = 0 := by simp [Vector.Det, Null]
  have h2 : v.Dot Null = 0 := by simp [Vector.Dot, Null]
  unfold Vector.AngleBetween
  rw [h1, h2, atan2_zero_zero]

theorem car7_turnCenter : car7.TurnCenter = ⟨30, 25⟩ := by
  show Polygon.Center (Polygon.Translate car7.Bounds (Null.AddX (car7.Size.Scale (-0.2)))) = _
  simp [car7, NewCar, Polygon.Center, Polygon.Translate, Vector.Add, Vector.AddX,
    Vector.AddY, Vector.Scale, Null, List.foldl]
  norm_num

theorem car7_diff :
    (⟨50, 0⟩ : Vector).Add ((car7.Position.Add car7.TurnCenter).Scale (-1)) = ⟨20, -25⟩ := by
  rw [car7_turnCenter]
  have hp : car7.Position = ⟨0, 0⟩ := rfl
  rw [hp]
  ext <;> simp [Vector.Add, Vector.Scale] <;> norm_num

theorem car7_dlen : ((⟨20, -25⟩ : Vector)).Len = Real.sqrt 1025 := by
  show Real.sqrt (20 * 20 + (-25) * (-25)) = Real.sqrt 1025
  norm_num

theorem sqrt1025_gt31 : (31 : ℝ) < Real.sqrt 1025 :=
  (Real.lt_sqrt (by norm_num)).mpr (by norm_num)

theorem sqrt1025_lt100 : Real.sqrt 1025 < 100 :=
  (Real.sqrt_lt' (by norm_num)).mpr (by norm_num)

theorem car7_heading : (car7.Velocity.Norm).RotateAround Null car7.Rotation = Null := by
  have hv : car7.Velocity = Null := rfl
  have hr : car7.Rotation = 0 := rfl
  rw [hv, hr]
  have hn : (Null : Vector).Norm = Null := by
    simp [Vector.Norm, Vector.Len, Null]
  rw [hn]
  ext <;> simp [Vector.RotateAround, Null]

/-- Claim C7: for the vehicle at position (0,0), rotation 0, velocity (0,0)
(the demo car shape) and the target at (50,0), a single `feed` call fires
both throttle and brake in the same tick — the result state is exactly
`Break(brakeSignal)` applied after `Accelerate(0.1)` (with the distance
`|toTarget| = √1025 ≈ 32.0` above the guard threshold 30, a positive
throttle signal, and a positive brake signal `100 - |toTarget|`); there is
no mutual exclusion between the two. -/
theorem feed_fires_throttle_and_brake (delta : ℝ) :
    Feed car7 delta ⟨50, 0⟩ = (car7.Accelerate 0.1).Break (100 - Real.sqrt 1025) ∧
    30 < ((⟨50, 0⟩ : Vector).Add ((car7.Position.Add car7.TurnCenter).Scale (-1))).Len ∧
    0 < 100 - ((⟨50, 0⟩ : Vector).Add ((car7.Position.Add car7.TurnCenter).Scale (-1))).Len := by
  have hd31 := sqrt1025_gt31
  have hd100 := sqrt1025_lt100
  refine ⟨?_, ?_, ?_⟩
  · simp only [Feed]
    rw [car7_diff, car7_heading, angle_with_null, car7_dlen]
    rw [if_neg (by norm_num : ¬ ((0 : ℝ) > 0)), if_neg (by norm_num : ¬ ((0 : ℝ) < 0))]
    have hml : mathLog (Real.sqrt 1025 - 30) = Real.log (Real.sqrt 1025 - 30) :=
      if_pos (by linarith)
    rw [hml]
    have hof : Real.log (Real.sqrt 1025 - 30) / 10 > 0 :=
      div_pos (Real.log_pos (by linarith)) (by norm_num)
    rw [if_pos hof]
    have hbr : -Real.sqrt 1025 + 100 > 0 := by linarith
    rw [if_pos hbr]
    have harg : -Real.sqrt 1025 + 100 = 100 - Real.sqrt 1025 := by ring
    rw [harg]
  · rw [car7_diff, car7_dlen]; linarith
  · rw [car7_diff, car7_dlen]; linarith

end

end CarSim
